import Mathlib

/-!
Verification of the Saarthi Fund ledger & loan amortization engine.

The definitions below are shallow embeddings of the TypeScript backend
(`src/backend/src`) together with the database constraints and triggers
(`src/database/schema.sql`).  Currency amounts are modelled as exact
rationals (the spec mandates decimal arithmetic for currency fields);
JavaScript `Math.round(x)` is `⌊x + 1/2⌋`.  Calendar dates are modelled
as integer day counts where an operation needs them; fields of the
source records that no claim touches (ids, free-text notes, calendar
due dates) are omitted.
-/

namespace SaarthiFund

/-- JavaScript `Math.round`: round half toward positive infinity. -/
def jsRound (q : ℚ) : ℤ := ⌊q + 1 / 2⌋

/-- `Math.round(x * 100) / 100` — round to 2 decimal places, the
rounding used throughout the backend for currency values. -/
def round2 (q : ℚ) : ℚ := (jsRound (q * 100) : ℚ) / 100

/-- Evaluation rule for `round2` at a concrete rational. -/
lemma round2_eq (q : ℚ) (n : ℤ) (h1 : (n : ℚ) ≤ q * 100 + 1 / 2)
    (h2 : q * 100 + 1 / 2 < n + 1) : round2 q = (n : ℚ) / 100 := by
  unfold round2 jsRound
  rw [Int.floor_eq_iff.mpr ⟨h1, h2⟩]

/-! ## `utils/interest.ts` : `calculateEMI` and `generateEMISchedule` -/

/-- From `calculateEMI` (`utils/interest.ts` lines 92-99): level payment
for a reducing-balance loan, rounded to 2 decimals (the zero-rate branch
returns `principal / months` unrounded, as in the source). -/
def calculateEMI (principal annualRate : ℚ) (months : ℕ) : ℚ :=
  let monthlyRate := annualRate / 100 / 12
  if monthlyRate = 0 then principal / months
  else
    round2 (principal * monthlyRate * (1 + monthlyRate) ^ months /
      ((1 + monthlyRate) ^ months - 1))

/-- One row of the generated installment (EMI) schedule.  The calendar
`due_date` column (one month per period from the start date) carries no
numeric content and is omitted from the embedding. -/
structure EmiRow where
  emi_number : ℕ
  principal_component : ℚ
  interest_component : ℚ
  total_emi : ℚ
  outstanding_after : ℚ
  deriving DecidableEq, Repr

/-- The `for (let i = 1; i <= months; i++)` loop of `generateEMISchedule`,
recursing on the number of remaining periods; the current period index is
`months - remaining`.  On the final period (`i === months`) the
outstanding balance is forced to `0`. -/
def emiLoop (emi monthlyRate : ℚ) (months : ℕ) : ℕ → ℚ → List EmiRow
  | 0, _ => []
  | remaining + 1, outstanding =>
    let i := months - remaining
    let interestComponent := round2 (outstanding * monthlyRate)
    let principalComponent := round2 (emi - interestComponent)
    let out1 := round2 (outstanding - principalComponent)
    let outstandingAfter := if remaining = 0 then 0 else out1
    { emi_number := i,
      principal_component := principalComponent,
      interest_component := interestComponent,
      total_emi := emi,
      outstanding_after := outstandingAfter } ::
      emiLoop emi monthlyRate months remaining outstandingAfter

/-- From `generateEMISchedule` (`utils/interest.ts` lines 102-144). -/
def generateEMISchedule (principal annualRate : ℚ) (months : ℕ) : List EmiRow :=
  let monthlyRate := annualRate / 100 / 12
  let emi := calculateEMI principal annualRate months
  emiLoop emi monthlyRate months months principal

lemma emiLoop_zero (e m : ℚ) (months : ℕ) (out : ℚ) :
    emiLoop e m months 0 out = [] := rfl

lemma emiLoop_succ (e m : ℚ) (months r : ℕ) (out : ℚ) :
    emiLoop e m months (r + 1) out =
      { emi_number := months - r,
        principal_component := round2 (e - round2 (out * m)),
        interest_component := round2 (out * m),
        total_emi := e,
        outstanding_after :=
          if r = 0 then 0 else round2 (out - round2 (e - round2 (out * m))) } ::
        emiLoop e m months r
          (if r = 0 then 0 else round2 (out - round2 (e - round2 (out * m)))) := rfl

lemma emiLoop_length (e m : ℚ) (months : ℕ) :
    ∀ (r : ℕ) (out : ℚ), (emiLoop e m months r out).length = r := by
  intro r
  induction r with
  | zero => intro out; rw [emiLoop_zero]; rfl
  | succ k ih =>
    intro out
    rw [emiLoop_succ, List.length_cons, ih]

/-- The last row produced by the schedule loop always carries a forced
outstanding balance of `0`. -/
lemma emiLoop_getLast_outstanding (e m : ℚ) (months : ℕ) :
    ∀ (r : ℕ) (out : ℚ), ∃ row,
      (emiLoop e m months (r + 1) out).getLast? = some row ∧
        row.outstanding_after = 0 := by
  intro r
  induction r with
  | zero =>
    intro out
    rw [emiLoop_succ, emiLoop_zero]
    exact ⟨_, rfl, by simp⟩
  | succ k ih =>
    intro out
    obtain ⟨row, h1, h2⟩ :=
      ih (if k + 1 = 0 then 0 else round2 (out - round2 (e - round2 (out * m))))
    refine ⟨row, ?_, h2⟩
    rw [emiLoop_succ, emiLoop_succ, List.getLast?_cons_cons, ← emiLoop_succ]
    exact h1

/-- Concrete evaluation of the spec's amortization example
(`principal = 10000`, `rate = 10`, `months = 12`): the sum of the twelve
principal components is `10000.03`, not `10000` — the 3-paise rounding
residue is absorbed by forcing the final outstanding balance to `0`, not
by adjusting any principal component. -/
lemma emiSchedule_example_sum :
    ((generateEMISchedule 10000 10 12).map (·.principal_component)).sum =
      1000003 / 100 := by
  have hE : calculateEMI 10000 10 12 = 87916 / 100 := by
    simp only [calculateEMI]
    rw [if_neg (by norm_num)]
    exact (round2_eq _ 87916 (by norm_num) (by norm_num)).trans (by norm_num)
  have i1 : round2 (10000 * (10 / 100 / 12)) = 8333 / 100 :=
    (round2_eq _ 8333 (by norm_num) (by norm_num)).trans (by norm_num)
  have p1 : round2 (87916 / 100 - 8333 / 100) = 79583 / 100 :=
    (round2_eq _ 79583 (by norm_num) (by norm_num)).trans (by norm_num)
  have o1 : round2 (10000 - 79583 / 100) = 920417 / 100 :=
    (round2_eq _ 920417 (by norm_num) (by norm_num)).trans (by norm_num)
  have i2 : round2 (920417 / 100 * (10 / 100 / 12)) = 767 / 10 :=
    (round2_eq _ 7670 (by norm_num) (by norm_num)).trans (by norm_num)
  have p2 : round2 (87916 / 100 - 767 / 10) = 40123 / 50 :=
    (round2_eq _ 80246 (by norm_num) (by norm_num)).trans (by norm_num)
  have o2 : round2 (920417 / 100 - 40123 / 50) = 840171 / 100 :=
    (round2_eq _ 840171 (by norm_num) (by norm_num)).trans (by norm_num)
  have i3 : round2 (840171 / 100 * (10 / 100 / 12)) = 7001 / 100 :=
    (round2_eq _ 7001 (by norm_num) (by norm_num)).trans (by norm_num)
  have p3 : round2 (87916 / 100 - 7001 / 100) = 16183 / 20 :=
    (round2_eq _ 80915 (by norm_num) (by norm_num)).trans (by norm_num)
  have o3 : round2 (840171 / 100 - 16183 / 20) = 189814 / 25 :=
    (round2_eq _ 759256 (by norm_num) (by norm_num)).trans (by norm_num)
  have i4 : round2 (189814 / 25 * (10 / 100 / 12)) = 6327 / 100 :=
    (round2_eq _ 6327 (by norm_num) (by norm_num)).trans (by norm_num)
  have p4 : round2 (87916 / 100 - 6327 / 100) = 81589 / 100 :=
    (round2_eq _ 81589 (by norm_num) (by norm_num)).trans (by norm_num)
  have o4 : round2 (189814 / 25 - 81589 / 100) = 677667 / 100 :=
    (round2_eq _ 677667 (by norm_num) (by norm_num)).trans (by norm_num)
  have i5 : round2 (677667 / 100 * (10 / 100 / 12)) = 5647 / 100 :=
    (round2_eq _ 5647 (by norm_num) (by norm_num)).trans (by norm_num)
  have p5 : round2 (87916 / 100 - 5647 / 100) = 82269 / 100 :=
    (round2_eq _ 82269 (by norm_num) (by norm_num)).trans (by norm_num)
  have o5 : round2 (677667 / 100 - 82269 / 100) = 297699 / 50 :=
    (round2_eq _ 595398 (by norm_num) (by norm_num)).trans (by norm_num)
  have i6 : round2 (297699 / 50 * (10 / 100 / 12)) = 2481 / 50 :=
    (round2_eq _ 4962 (by norm_num) (by norm_num)).trans (by norm_num)
  have p6 : round2 (87916 / 100 - 2481 / 50) = 41477 / 50 :=
    (round2_eq _ 82954 (by norm_num) (by norm_num)).trans (by norm_num)
  have o6 : round2 (297699 / 50 - 41477 / 50) = 128111 / 25 :=
    (round2_eq _ 512444 (by norm_num) (by norm_num)).trans (by norm_num)
  have i7 : round2 (128111 / 25 * (10 / 100 / 12)) = 427 / 10 :=
    (round2_eq _ 4270 (by norm_num) (by norm_num)).trans (by norm_num)
  have p7 : round2 (87916 / 100 - 427 / 10) = 41823 / 50 :=
    (round2_eq _ 83646 (by norm_num) (by norm_num)).trans (by norm_num)
  have o7 : round2 (128111 / 25 - 41823 / 50) = 214399 / 50 :=
    (round2_eq _ 428798 (by norm_num) (by norm_num)).trans (by norm_num)
  have i8 : round2 (214399 / 50 * (10 / 100 / 12)) = 3573 / 100 :=
    (round2_eq _ 3573 (by norm_num) (by norm_num)).trans (by norm_num)
  have p8 : round2 (87916 / 100 - 3573 / 100) = 84343 / 100 :=
    (round2_eq _ 84343 (by norm_num) (by norm_num)).trans (by norm_num)
  have o8 : round2 (214399 / 50 - 84343 / 100) = 68891 / 20 :=
    (round2_eq _ 344455 (by norm_num) (by norm_num)).trans (by norm_num)
  have i9 : round2 (68891 / 20 * (10 / 100 / 12)) = 287 / 10 :=
    (round2_eq _ 2870 (by norm_num) (by norm_num)).trans (by norm_num)
  have p9 : round2 (87916 / 100 - 287 / 10) = 42523 / 50 :=
    (round2_eq _ 85046 (by norm_num) (by norm_num)).trans (by norm_num)
  have o9 : round2 (68891 / 20 - 42523 / 50) = 259409 / 100 :=
    (round2_eq _ 259409 (by norm_num) (by norm_num)).trans (by norm_num)
  have i10 : round2 (259409 / 100 * (10 / 100 / 12)) = 1081 / 50 :=
    (round2_eq _ 2162 (by norm_num) (by norm_num)).trans (by norm_num)
  have p10 : round2 (87916 / 100 - 1081 / 50) = 42877 / 50 :=
    (round2_eq _ 85754 (by norm_num) (by norm_num)).trans (by norm_num)
  have o10 : round2 (259409 / 100 - 42877 / 50) = 34731 / 20 :=
    (round2_eq _ 173655 (by norm_num) (by norm_num)).trans (by norm_num)
  have i11 : round2 (34731 / 20 * (10 / 100 / 12)) = 1447 / 100 :=
    (round2_eq _ 1447 (by norm_num) (by norm_num)).trans (by norm_num)
  have p11 : round2 (87916 / 100 - 1447 / 100) = 86469 / 100 :=
    (round2_eq _ 86469 (by norm_num) (by norm_num)).trans (by norm_num)
  have o11 : round2 (34731 / 20 - 86469 / 100) = 43593 / 50 :=
    (round2_eq _ 87186 (by norm_num) (by norm_num)).trans (by norm_num)
  have i12 : round2 (43593 / 50 * (10 / 100 / 12)) = 727 / 100 :=
    (round2_eq _ 727 (by norm_num) (by norm_num)).trans (by norm_num)
  have p12 : round2 (87916 / 100 - 727 / 100) = 87189 / 100 :=
    (round2_eq _ 87189 (by norm_num) (by norm_num)).trans (by norm_num)
  simp only [generateEMISchedule]
  rw [hE]
  rw [emiLoop_succ]
  simp +decide only [reduceIte, i1, p1, o1]
  rw [emiLoop_succ]
  simp +decide only [reduceIte, i2, p2, o2]
  rw [emiLoop_succ]
  simp +decide only [reduceIte, i3, p3, o3]
  rw [emiLoop_succ]
  simp +decide only [reduceIte, i4, p4, o4]
  rw [emiLoop_succ]
  simp +decide only [reduceIte, i5, p5, o5]
  rw [emiLoop_succ]
  simp +decide only [reduceIte, i6, p6, o6]
  rw [emiLoop_succ]
  simp +decide only [reduceIte, i7, p7, o7]
  rw [emiLoop_succ]
  simp +decide only [reduceIte, i8, p8, o8]
  rw [emiLoop_succ]
  simp +decide only [reduceIte, i9, p9, o9]
  rw [emiLoop_succ]
  simp +decide only [reduceIte, i10, p10, o10]
  rw [emiLoop_succ]
  simp +decide only [reduceIte, i11, p11, o11]
  rw [emiLoop_succ]
  simp +decide only [reduceIte, i12, p12, emiLoop_zero]
  norm_num

/-- C2 (counterexample): at the spec's own example `principal = 10000`,
`rate = 10`, `months = 12`, the sum of the principal components of the
generated schedule is `10000.03`, not the principal `10000`, so the claim
"the sum of the principal components of all n entries equals P exactly"
is false. -/
theorem generateEMISchedule_principal_sum_ne_principal :
    ((generateEMISchedule 10000 10 12).map (·.principal_component)).sum ≠
      10000 := by
  rw [emiSchedule_example_sum]
  norm_num

/-- C2 (amended): for every principal, rate and month count `n ≥ 1` the
final entry's outstanding balance is forced to exactly `0`; the sum of
the principal components equals the principal only up to the rounding
residue absorbed by that forcing — at the example
`principal = 10000, rate = 10, months = 12` the sum is `10000.03`. -/
theorem generateEMISchedule_final_outstanding_zero :
    (∀ (P r : ℚ) (n : ℕ), 1 ≤ n →
      ∃ row, (generateEMISchedule P r n).getLast? = some row ∧
        row.outstanding_after = 0) ∧
    ((generateEMISchedule 10000 10 12).map (·.principal_component)).sum =
      1000003 / 100 := by
  constructor
  · intro P r n hn
    obtain ⟨k, rfl⟩ : ∃ k, n = k + 1 :=
      ⟨n - 1, (Nat.succ_pred_eq_of_pos hn).symm⟩
    simpa only [generateEMISchedule] using
      emiLoop_getLast_outstanding (calculateEMI P r (k + 1)) (r / 100 / 12)
        (k + 1) k P
  · exact emiSchedule_example_sum

/-- C2 (witness): the general part of the amended claim applied at the
spec's example input. -/
theorem generateEMISchedule_final_outstanding_zero_witness :
    ∃ row, (generateEMISchedule 10000 10 12).getLast? = some row ∧
      row.outstanding_after = 0 :=
  generateEMISchedule_final_outstanding_zero.1 10000 10 12 (by norm_num)

/-! ## `utils/interest.ts` : `getMemberEligibility` -/

/-- From `getMemberEligibility` (`utils/interest.ts` lines 31-89), with
the database aggregates (member deposit sum, pool sum, outstanding
active-loan principal) and the configuration lookups (max pool
percentage, max multiplier from the richest active bracket) passed as
arguments.  A member with no deposits is short-circuited to `0`;
otherwise `Math.max(Math.min(maxFromPool, maxFromDeposits) -
outstanding, 0)`. -/
def getMemberEligibility
    (totalDeposits totalPool outstanding maxPoolPercent maxMultiplier : ℚ) : ℚ :=
  if totalDeposits = 0 then 0
  else
    max (min (totalPool * maxPoolPercent) (totalDeposits * maxMultiplier) -
      outstanding) 0

/-- C3: for every member (with a nonnegative outstanding-loan aggregate)
the eligibility equals `max(0, min(totalPool × maxPoolPercentage,
totalDeposits × maxMultiplier) − outstanding)`, and it is `0` whenever
`totalDeposits = 0`. -/
theorem getMemberEligibility_spec
    (td tp os pct mult : ℚ) (hos : 0 ≤ os) :
    getMemberEligibility td tp os pct mult =
      max 0 (min (tp * pct) (td * mult) - os) ∧
    (td = 0 → getMemberEligibility td tp os pct mult = 0) := by
  constructor
  · unfold getMemberEligibility
    by_cases h : td = 0
    · rw [if_pos h, h]
      have hmin : min (tp * pct) ((0 : ℚ) * mult) ≤ 0 := by
        rw [zero_mul]
        exact min_le_right _ 0
      rw [eq_comm, max_eq_left (by linarith)]
    · rw [if_neg h, max_comm]
  · intro h
    unfold getMemberEligibility
    rw [if_pos h]

/-- C3 (witness): the spec's worked example, `totalPool = 50000`,
`totalDeposits = 2100`, `outstanding = 0`, `maxPoolPercentage = 0.40`,
`maxMultiplier = 11` gives `maxEligible = min(20000, 23100) = 20000`. -/
theorem getMemberEligibility_spec_witness :
    (0 : ℚ) ≤ 0 ∧ getMemberEligibility 2100 50000 0 (2 / 5) 11 = 20000 := by
  refine ⟨le_refl 0, ?_⟩
  rw [(getMemberEligibility_spec 2100 50000 0 (2 / 5) 11 (le_refl 0)).1]
  norm_num

/-! ## `utils/interest.ts` : `getInterestRate` (bracket resolver) -/

/-- One row of the `interest_brackets` table: `max_multiplier` is `none`
when the bracket is unbounded above. -/
structure InterestBracket where
  min_multiplier : ℚ
  max_multiplier : Option ℚ
  interest_rate : ℚ
  is_active : Bool
  deriving DecidableEq, Repr

/-- The `where` clause of the `findFirst` query in `getInterestRate`
(`utils/interest.ts` lines 16-28): active, `min_multiplier < multiplier`,
and (`max_multiplier` null or `multiplier ≤ max_multiplier`). -/
def bracketMatches (multiplier : ℚ) (b : InterestBracket) : Bool :=
  b.is_active && decide (b.min_multiplier < multiplier) &&
    (match b.max_multiplier with
     | none => true
     | some mx => decide (multiplier ≤ mx))

/-- From `getInterestRate` (`utils/interest.ts` lines 16-28): the first
matching active bracket's rate, or the hardcoded default `12.0`. -/
def getInterestRate (brackets : List InterestBracket) (multiplier : ℚ) : ℚ :=
  match brackets.find? (bracketMatches multiplier) with
  | some b => b.interest_rate
  | none => 12

/-- C4: `resolveRate` returns the rate of the active bracket with
`min_multiplier < m` and (`max_multiplier` unbounded or
`m ≤ max_multiplier`) when that bracket is unique, returns the fixed
default `12` when no active bracket matches, and a multiplier exactly
equal to a bracket's `min_multiplier` never matches that bracket. -/
theorem getInterestRate_spec (brackets : List InterestBracket) (m : ℚ) :
    (∀ b, b ∈ brackets → bracketMatches m b = true →
      (∀ b', b' ∈ brackets → bracketMatches m b' = true → b' = b) →
      getInterestRate brackets m = b.interest_rate) ∧
    ((∀ b, b ∈ brackets → bracketMatches m b = false) →
      getInterestRate brackets m = 12) ∧
    (∀ b : InterestBracket, b.min_multiplier = m →
      bracketMatches m b = false) := by
  refine ⟨?_, ?_, ?_⟩
  · intro b hmem hmatch huniq
    unfold getInterestRate
    cases hfind : brackets.find? (bracketMatches m) with
    | none =>
      exact absurd hmatch (by simpa using List.find?_eq_none.mp hfind b hmem)
    | some c =>
      rw [huniq c (List.mem_of_find?_eq_some hfind) (List.find?_some hfind)]
  · intro hnone
    unfold getInterestRate
    cases hfind : brackets.find? (bracketMatches m) with
    | none => rfl
    | some c =>
      have := hnone c (List.mem_of_find?_eq_some hfind)
      rw [List.find?_some hfind] at this
      cases this
  · intro b hb
    unfold bracketMatches
    rw [hb]
    simp

/-- C4 (witness): the spec's boundary example — brackets
`(0,2] → 9.5%` and `(2,5] → 10%`; multiplier exactly `2` resolves to
`9.5` (the lower bracket), multiplier `2.0001` resolves to `10`. -/
theorem getInterestRate_spec_witness :
    getInterestRate
        [⟨0, some 2, 19 / 2, true⟩, ⟨2, some 5, 10, true⟩] 2 = 19 / 2 ∧
    getInterestRate
        [⟨0, some 2, 19 / 2, true⟩, ⟨2, some 5, 10, true⟩]
        (20001 / 10000) = 10 := by
  constructor
  · refine (getInterestRate_spec
      [⟨0, some 2, 19 / 2, true⟩, ⟨2, some 5, 10, true⟩] 2).1
      ⟨0, some 2, 19 / 2, true⟩ (by simp) ?_ ?_
    · simp [bracketMatches]
    · intro b' hmem hmatch
      simp only [List.mem_cons, List.not_mem_nil, or_false] at hmem
      rcases hmem with h | h
      · exact h
      · exfalso
        rw [h] at hmatch
        simp [bracketMatches] at hmatch
  · refine (getInterestRate_spec
      [⟨0, some 2, 19 / 2, true⟩, ⟨2, some 5, 10, true⟩]
      (20001 / 10000)).1
      ⟨2, some 5, 10, true⟩ (by simp) ?_ ?_
    · simp [bracketMatches]
      norm_num
    · intro b' hmem hmatch
      simp only [List.mem_cons, List.not_mem_nil, or_false] at hmem
      rcases hmem with h | h
      · exfalso
        rw [h] at hmatch
        simp [bracketMatches] at hmatch
        norm_num at hmatch
      · exact h

/-! ## `utils/interest.ts` : pre-installment compound interest

`Math.pow` takes a fractional exponent here (`days / 30`), so these
functions live on `ℝ` with real exponentiation. -/

/-- From `calculatePreEmiTotal` (`utils/interest.ts` lines 4-8):
`principal × (1 + rate/100/12) ^ (days/30)`. -/
noncomputable def calculatePreEmiTotal (principal ratePercent days : ℝ) : ℝ :=
  principal * (1 + ratePercent / 100 / 12) ^ (days / 30)

/-- From `calculatePreEmiInterest` (`utils/interest.ts` lines 11-13). -/
noncomputable def calculatePreEmiInterest (principal ratePercent days : ℝ) : ℝ :=
  calculatePreEmiTotal principal ratePercent days - principal

/-- `Math.round` on the reals. -/
noncomputable def jsRoundR (x : ℝ) : ℤ := ⌊x + 1 / 2⌋

/-- `Math.round(x * 100) / 100` on the reals — the rounding applied to
the pre-installment interest when the charge row is persisted
(`routes/loans.ts` line 302). -/
noncomputable def round2R (x : ℝ) : ℝ := (jsRoundR (x * 100) : ℝ) / 100

/-- Concrete evaluation of the spec's pre-installment example: at
`principal = 7000`, `rate = 9.5`, `days = 45` the charged (2-decimal
rounded) interest is `83.29`, not the `83.37` stated in the spec.  The
exponent `45/30 = 3/2` is handled via `x^(3/2) = √(x³)` with rational
bounds on the square root. -/
lemma preEmiCharge_example :
    round2R (calculatePreEmiInterest 7000 9.5 45) = 8329 / 100 := by
  have hb : (1 + (9.5 : ℝ) / 100 / 12) = 2419 / 2400 := by norm_num
  have he : ((45 : ℝ) / 30) = ((3 : ℕ) : ℝ) * (1 / 2) := by norm_num
  have hy : ((2419 / 2400 : ℝ)) ^ (3 : ℕ) = 14154926059 / 13824000000 := by
    norm_num
  have hs : calculatePreEmiTotal 7000 9.5 45 =
      7000 * Real.sqrt (14154926059 / 13824000000) := by
    unfold calculatePreEmiTotal
    rw [hb, he, Real.rpow_natCast_mul (by norm_num), ← Real.sqrt_eq_rpow, hy]
  have h1 : (1.011898 : ℝ) ≤ Real.sqrt (14154926059 / 13824000000) :=
    (Real.le_sqrt (by norm_num) (by norm_num)).mpr (by norm_num)
  have h2 : Real.sqrt (14154926059 / 13824000000) < 1.011899 :=
    (Real.sqrt_lt' (by norm_num)).mpr (by norm_num)
  unfold round2R jsRoundR calculatePreEmiInterest
  rw [hs]
  rw [show ⌊(7000 * Real.sqrt (14154926059 / 13824000000) - 7000) * 100 +
      1 / 2⌋ = (8329 : ℤ) from
    Int.floor_eq_iff.mpr ⟨by push_cast; nlinarith, by push_cast; nlinarith⟩]
  norm_num

/-- C8 (counterexample): the spec's example value is wrong — the
pre-installment charge at `principal = 7000`, `rate = 9.5`, `days = 45`
is `83.29`, not approximately `83.37`. -/
theorem calculatePreEmiInterest_example_ne :
    round2R (calculatePreEmiInterest 7000 9.5 45) ≠ 8337 / 100 := by
  rw [preEmiCharge_example]
  norm_num

/-- C8 (amended): the pre-installment interest is
`P × (1 + r/100/12)^(d/30) − P` (30-day months regardless of calendar
month length), rounded to 2 decimal places when charged; at
`P = 7000, r = 9.5, d = 45` this yields `83.29`. -/
theorem calculatePreEmiInterest_spec :
    (∀ p r d : ℝ, calculatePreEmiInterest p r d =
      p * (1 + r / 100 / 12) ^ (d / 30) - p) ∧
    round2R (calculatePreEmiInterest 7000 9.5 45) = 8329 / 100 :=
  ⟨fun _ _ _ => rfl, preEmiCharge_example⟩

/-! ## `index.ts` POST `/api/deposits` + `schema.sql` deposit constraints -/

/-- Truncation toward zero, as JavaScript `%` uses for its implicit
quotient. -/
def ratTrunc (q : ℚ) : ℤ := if q < 0 then -⌊-q⌋ else ⌊q⌋

lemma ratTrunc_intCast (n : ℤ) : ratTrunc (n : ℚ) = n := by
  unfold ratTrunc
  split
  · rw [← Int.cast_neg, Int.floor_intCast, neg_neg]
  · rw [Int.floor_intCast]

/-- JavaScript remainder `a % b` (sign of the dividend). -/
def jsMod (a b : ℚ) : ℚ := a - b * (ratTrunc (a / b) : ℚ)

lemma jsMod_eq_zero {a b : ℚ} (k : ℤ) (hk : a = b * k) (hb : b ≠ 0) :
    jsMod a b = 0 := by
  unfold jsMod
  rw [hk, mul_div_cancel_left₀ _ hb, ratTrunc_intCast]
  ring

/-- Deposit-recording failures.  `invalidAmount` covers both the
handler's multiple-of-unit check and the schema's `CHECK (amount > 0)`;
`invalidMonth` is the schema's `CHECK (member_month > 0)`;
`belowMinimum` is the handler's cumulative-minimum rule. -/
inductive DepositError where
  | invalidAmount
  | belowMinimum
  | invalidMonth
  deriving DecidableEq, Repr

/-- Composite of the POST `/api/deposits` handler
(`backend/src/index.ts` lines 264-310) and the `deposits` table
constraints (`database/schema.sql`): the handler rejects
`amount % unit !== 0`, then rejects `prior + amount < unit ×
member_month`; only then does the insert run, where the schema's
`CHECK (amount > 0)` and `CHECK (member_month > 0)` fire (the
`trg_validate_deposit` / `trg_validate_minimum_deposit` triggers
re-check the same two handler rules).  On success the persisted
cumulative total is `prior + amount`; every failure leaves the table
unchanged. -/
def recordDeposit (unit priorTotal amount : ℚ) (memberMonth : ℤ) :
    Except DepositError ℚ :=
  if jsMod amount unit ≠ 0 then .error .invalidAmount
  else if priorTotal + amount < unit * (memberMonth : ℚ) then
    .error .belowMinimum
  else if amount ≤ 0 then .error .invalidAmount
  else if memberMonth < 1 then .error .invalidMonth
  else .ok (priorTotal + amount)

/-- C1 (counterexample): at `unit = 300`, prior total `0`, `amount = 0`,
`memberMonth = 1`, the deposit pipeline rejects with `BelowMinimum`
(the handler's minimum-total rule runs before any positivity check),
whereas the claim requires `InvalidAmount` for every `amount ≤ 0`. -/
theorem recordDeposit_zero_amount_counterexample :
    recordDeposit 300 0 0 1 = .error .belowMinimum ∧
    DepositError.belowMinimum ≠ DepositError.invalidAmount := by
  refine ⟨?_, by decide⟩
  have hmod : jsMod 0 300 = 0 := jsMod_eq_zero 0 (by norm_num) (by norm_num)
  unfold recordDeposit
  rw [if_neg (by simp [hmod]), if_pos (by norm_num)]

/-- C1 (amended): the deposit pipeline accepts exactly the positive
unit-multiples in a valid month meeting the cumulative minimum,
persisting cumulative total `prior + amount`; the failures are checked
in pipeline order — first `InvalidAmount` for `amount % unit ≠ 0`, then
`BelowMinimum` for `prior + amount < unit × memberMonth`, then
`InvalidAmount` (schema check) for `amount ≤ 0`, then `InvalidMonth`
(schema check) for `memberMonth < 1` — and a failure writes nothing. -/
theorem recordDeposit_spec (unit prior amount : ℚ) (mm : ℤ) :
    (jsMod amount unit = 0 → unit * (mm : ℚ) ≤ prior + amount →
      0 < amount → 1 ≤ mm →
      recordDeposit unit prior amount mm = .ok (prior + amount)) ∧
    (jsMod amount unit ≠ 0 →
      recordDeposit unit prior amount mm = .error .invalidAmount) ∧
    (jsMod amount unit = 0 → prior + amount < unit * (mm : ℚ) →
      recordDeposit unit prior amount mm = .error .belowMinimum) ∧
    (jsMod amount unit = 0 → unit * (mm : ℚ) ≤ prior + amount →
      amount ≤ 0 →
      recordDeposit unit prior amount mm = .error .invalidAmount) ∧
    (jsMod amount unit = 0 → unit * (mm : ℚ) ≤ prior + amount →
      0 < amount → mm < 1 →
      recordDeposit unit prior amount mm = .error .invalidMonth) := by
  refine ⟨?_, ?_, ?_, ?_, ?_⟩
  · intro hmod hmin hpos hmonth
    unfold recordDeposit
    rw [if_neg (by simp [hmod]), if_neg (not_lt.mpr hmin),
      if_neg (not_le.mpr hpos), if_neg (not_lt.mpr hmonth)]
  · intro hmod
    unfold recordDeposit
    rw [if_pos hmod]
  · intro hmod hlt
    unfold recordDeposit
    rw [if_neg (by simp [hmod]), if_pos hlt]
  · intro hmod hmin hnonpos
    unfold recordDeposit
    rw [if_neg (by simp [hmod]), if_neg (not_lt.mpr hmin), if_pos hnonpos]
  · intro hmod hmin hpos hmonth
    unfold recordDeposit
    rw [if_neg (by simp [hmod]), if_neg (not_lt.mpr hmin),
      if_neg (not_le.mpr hpos), if_pos hmonth]

/-- C1 (witness): the spec's minimum-rule example — member-month 3 with
prior cumulative 300 and `unit = 300`: depositing 900 (new total 1200 ≥
900) is accepted, and depositing 300 (new total 600 < 900) is rejected
with `BelowMinimum`. -/
theorem recordDeposit_spec_witness :
    recordDeposit 300 300 900 3 = .ok 1200 ∧
    recordDeposit 300 300 300 3 = .error .belowMinimum := by
  constructor
  · have h := (recordDeposit_spec 300 300 900 3).1
      (jsMod_eq_zero 3 (by norm_num) (by norm_num)) (by norm_num)
      (by norm_num) (by norm_num)
    rw [h]
    norm_num
  · exact (recordDeposit_spec 300 300 300 3).2.2.1
      (jsMod_eq_zero 1 (by norm_num) (by norm_num)) (by norm_num)

/-! ## `routes/interest.ts` POST `/api/interest/snapshots` -/

/-- A monthly pool snapshot (`monthly_pool_snapshot` row): the
member-to-units mapping is modelled as an association list in member
order. -/
structure PoolSnapshot where
  total_pool_amount : ℚ
  total_pool_units : ℤ
  cumulative_pool_units : ℤ
  member_snapshots : List (ℕ × ℤ)
  deriving DecidableEq, Repr

/-- From the POST `/api/interest/snapshots` handler
(`routes/interest.ts` lines 51-100), applied to the per-member deposit
totals (the `groupBy` aggregate): member units are
`Math.floor(amount / 300)` and pool units `Math.floor(totalAmount / 300)`
— the divisor `300` is hardcoded in the handler. -/
def createSnapshot (memberTotals : List (ℕ × ℚ)) : PoolSnapshot :=
  { total_pool_amount := (memberTotals.map (·.2)).sum
    total_pool_units := ⌊(memberTotals.map (·.2)).sum / 300⌋
    cumulative_pool_units := ⌊(memberTotals.map (·.2)).sum / 300⌋
    member_snapshots := memberTotals.map fun p => (p.1, ⌊p.2 / 300⌋) }

/-- Modelled from the spec: the same snapshot computation but dividing
by the configured deposit unit `u` from fund settings, as §4.7 states
("cumulative units = floor(memberTotalDeposits / unit); pool units =
floor(totalPoolAmount / unit)"). -/
def createSnapshotSpec (unit : ℚ) (memberTotals : List (ℕ × ℚ)) :
    PoolSnapshot :=
  { total_pool_amount := (memberTotals.map (·.2)).sum
    total_pool_units := ⌊(memberTotals.map (·.2)).sum / unit⌋
    cumulative_pool_units := ⌊(memberTotals.map (·.2)).sum / unit⌋
    member_snapshots := memberTotals.map fun p => (p.1, ⌊p.2 / unit⌋) }

/-- C9 (counterexample): with a configured deposit unit of `600` and a
single member holding `600`, the handler still computes
`floor(600 / 300) = 2` units, while the spec's configured-unit
computation gives `floor(600 / 600) = 1` — the divisor is hardcoded. -/
theorem createSnapshot_hardcoded_unit_counterexample :
    (createSnapshot [(1, 600)]).member_snapshots = [(1, 2)] ∧
    (createSnapshotSpec 600 [(1, 600)]).member_snapshots = [(1, 1)] ∧
    createSnapshot [(1, 600)] ≠ createSnapshotSpec 600 [(1, 600)] := by
  have h2 : ((600 : ℚ) / 300) = ((2 : ℤ) : ℚ) := by norm_num
  have h1 : ((600 : ℚ) / 600) = ((1 : ℤ) : ℚ) := by norm_num
  have ha : (createSnapshot [(1, 600)]).member_snapshots = [(1, 2)] := by
    simp only [createSnapshot, List.map_cons, List.map_nil, h2,
      Int.floor_intCast]
  have hb : (createSnapshotSpec 600 [(1, 600)]).member_snapshots =
      [(1, 1)] := by
    simp only [createSnapshotSpec, List.map_cons, List.map_nil, h1,
      Int.floor_intCast]
  refine ⟨ha, hb, fun h => ?_⟩
  rw [h, hb] at ha
  exact absurd ha (by decide)

/-- C9 (amended): the snapshot handler divides by the hardcoded
constant `300`, so it agrees with the spec's configured-unit
computation exactly when the configured deposit unit is `300` (the
default). -/
theorem createSnapshot_spec (unit : ℚ) (ms : List (ℕ × ℚ))
    (h : unit = 300) : createSnapshot ms = createSnapshotSpec unit ms := by
  subst h
  rfl

/-- C9 (witness): at the default unit `300` the two computations agree
on a concrete input. -/
theorem createSnapshot_spec_witness :
    createSnapshot [(1, 600)] = createSnapshotSpec 300 [(1, 600)] :=
  createSnapshot_spec 300 [(1, 600)] rfl

/-! ## `routes/interest.ts` POST `/api/interest/entries` (distribution) -/

/-- One `member_interest_shares` row. -/
structure MemberInterestShare where
  user_id : ℕ
  member_cumulative_units : ℤ
  total_pool_units : ℤ
  share_percentage : ℚ
  interest_share : ℚ
  deriving DecidableEq, Repr

/-- One `emergency_fund_transactions` row (type `interest_credit`). -/
structure FundTransaction where
  amount : ℚ
  balance_after : ℚ
  deriving DecidableEq, Repr

/-- The share-building loop of the POST `/api/interest/entries` handler
(`routes/interest.ts` lines 192-208): one share per member with
`units > 0`, with `interest_share = Math.round(ratePerUnit × units ×
100) / 100` where `ratePerUnit = amount / totalUnits`. -/
def buildShares (memberUnits : List (ℕ × ℤ)) (totalUnits : ℤ)
    (amount : ℚ) : List MemberInterestShare :=
  (memberUnits.filter (fun p => 0 < p.2)).map fun p =>
    { user_id := p.1
      member_cumulative_units := p.2
      total_pool_units := totalUnits
      share_percentage := ((p.2 : ℚ) / (totalUnits : ℚ)) * 100
      interest_share := round2 (amount / (totalUnits : ℚ) * (p.2 : ℚ)) }

/-- From the POST `/api/interest/entries` handler (`routes/interest.ts`
lines 153-261), given the source snapshot's member-units map and
cumulative unit count, the distributed amount, and the current
emergency-fund balance: rejects a zero-unit snapshot, otherwise creates
the shares, increments the fund balance by exactly `amount`, and appends
a transaction carrying the resulting balance. -/
def distributeInterest (memberUnits : List (ℕ × ℤ)) (totalUnits : ℤ)
    (amount balance : ℚ) :
    Option (List MemberInterestShare × ℚ × FundTransaction) :=
  if totalUnits = 0 then none
  else
    some (buildShares memberUnits totalUnits amount, balance + amount,
      { amount := amount, balance_after := balance + amount })

/-- C5: on a snapshot with nonzero units, distribution creates exactly
one share per member with nonzero units, each share being
`round2((amount / totalUnits) × memberUnits)`; the fund balance grows by
exactly the distributed amount (not by the sum of the rounded shares)
and the appended transaction carries the resulting balance. -/
theorem distributeInterest_spec (mu : List (ℕ × ℤ)) (tu : ℤ)
    (amount balance : ℚ) (h : tu ≠ 0) :
    ∃ shares txn,
      distributeInterest mu tu amount balance =
        some (shares, balance + amount, txn) ∧
      txn = { amount := amount, balance_after := balance + amount } ∧
      shares = buildShares mu tu amount ∧
      shares.length = (mu.filter (fun p => 0 < p.2)).length ∧
      ∀ s ∈ shares, s.interest_share =
        round2 (amount / (tu : ℚ) * (s.member_cumulative_units : ℚ)) := by
  refine ⟨buildShares mu tu amount,
    { amount := amount, balance_after := balance + amount }, ?_, rfl, rfl,
    ?_, ?_⟩
  · unfold distributeInterest
    rw [if_neg h]
  · unfold buildShares
    rw [List.length_map]
  · intro s hs
    unfold buildShares at hs
    obtain ⟨p, _, rfl⟩ := List.mem_map.mp hs
    rfl

/-- C5 (witness): the claim applied to the spec's example snapshot —
members with 10 and 20 units (total 30), `amount = 300`, starting
balance `0`. -/
theorem distributeInterest_spec_witness :
    (30 : ℤ) ≠ 0 ∧
    ∃ shares txn,
      distributeInterest [(1, 10), (2, 20)] 30 300 0 =
        some (shares, 0 + 300, txn) ∧
      txn = { amount := 300, balance_after := 0 + 300 } ∧
      shares = buildShares [(1, 10), (2, 20)] 30 300 ∧
      shares.length =
        (List.filter (fun p => 0 < p.2) [((1 : ℕ), (10 : ℤ)), (2, 20)]).length ∧
      ∀ s ∈ shares, s.interest_share =
        round2 (300 / ((30 : ℤ) : ℚ) * (s.member_cumulative_units : ℚ)) :=
  ⟨by decide, distributeInterest_spec [(1, 10), (2, 20)] 30 300 0 (by decide)⟩

/-- The spec's distribution example evaluated: with `ratePerUnit = 10`,
member A (10 units) receives `100` and member B (20 units) receives
`200`. -/
lemma buildShares_example :
    (buildShares [(1, 10), (2, 20)] 30 300).map (·.interest_share) =
      [100, 200] := by
  have hf : List.filter (fun p => 0 < p.2) [((1 : ℕ), (10 : ℤ)), (2, 20)] =
      [(1, 10), (2, 20)] := by decide
  unfold buildShares
  rw [hf]
  have c1 : (300 : ℚ) / ((30 : ℤ) : ℚ) * (((1, (10 : ℤ)) : ℕ × ℤ).2 : ℚ) =
      100 := by push_cast; norm_num
  have c2 : (300 : ℚ) / ((30 : ℤ) : ℚ) * (((2, (20 : ℤ)) : ℕ × ℤ).2 : ℚ) =
      200 := by push_cast; norm_num
  have r1 : round2 100 = 100 :=
    (round2_eq 100 10000 (by norm_num) (by norm_num)).trans (by norm_num)
  have r2 : round2 200 = 200 :=
    (round2_eq 200 20000 (by norm_num) (by norm_num)).trans (by norm_num)
  simp only [List.map_cons, List.map_nil, c1, c2, r1, r2]

/-! ## `routes/payments.ts` : payment application and loan lifecycle -/

/-- The `loan_status` enum (`schema.sql`). -/
inductive LoanStatus where
  | active
  | completed
  | defaulted
  deriving DecidableEq, Repr

/-- A `loans` row restricted to the fields the payment and
installment-start operations read or write (dates are epoch-day
numbers; audit snapshot fields and `pre_emi_interest_amount` are
untouched by the claims and omitted). -/
structure Loan where
  principal_amount : ℚ
  interest_rate : ℚ
  disbursed_at : ℤ
  maturity_date : ℤ
  emi_start_date : Option ℤ
  outstanding_principal : ℚ
  total_interest_paid : ℚ
  status : LoanStatus
  completed_at : Option ℤ
  deriving DecidableEq, Repr

/-- An `emi_schedule` row as the payment route reads it. -/
structure EmiScheduleEntry where
  principal_component : ℚ
  interest_component : ℚ
  is_paid : Bool
  paid_amount : Option ℚ
  deriving DecidableEq, Repr

/-- From POST `/api/payments/emi/:emiId` (`routes/payments.ts` lines
189-244): for an existing entry (no paid-state and no loan-status check)
the handler marks the entry paid, decrements the loan's outstanding
principal by the entry's principal component, adds the entry's interest
component to the cumulative interest paid, and — when the updated
outstanding is ≤ 0 — sets the loan `completed` with a completion
timestamp. -/
def payEmi (entry : EmiScheduleEntry) (loan : Loan) (amount : ℚ)
    (now : ℤ) : EmiScheduleEntry × Loan :=
  let entry' := { entry with is_paid := true, paid_amount := some amount }
  let loan1 := { loan with
    outstanding_principal :=
      loan.outstanding_principal - entry.principal_component
    total_interest_paid :=
      loan.total_interest_paid + entry.interest_component }
  let loan2 :=
    if loan1.outstanding_principal ≤ 0 then
      { loan1 with status := .completed, completed_at := some now }
    else loan1
  (entry', loan2)

inductive PaymentError where
  | exceedsOutstanding
  deriving DecidableEq, Repr

/-- From POST `/api/payments/prepay/:loanId` (`routes/payments.ts` lines
273-319): rejects `amount > outstanding`, otherwise decrements the
outstanding principal by `amount` and completes the loan when the result
is ≤ 0. -/
def prepay (loan : Loan) (amount : ℚ) (now : ℤ) :
    Except PaymentError Loan :=
  if loan.outstanding_principal < amount then .error .exceedsOutstanding
  else
    let loan1 := { loan with
      outstanding_principal := loan.outstanding_principal - amount }
    if loan1.outstanding_principal ≤ 0 then
      .ok { loan1 with status := .completed, completed_at := some now }
    else .ok loan1

/-- From POST `/api/payments/pre-emi/:preEmiId` (`routes/payments.ts`
lines 117-161): the loan update only increments cumulative interest
paid. -/
def payPreEmi (loan : Loan) (amount : ℚ) : Loan :=
  { loan with total_interest_paid := loan.total_interest_paid + amount }

lemma payEmi_fst (entry : EmiScheduleEntry) (loan : Loan) (amount : ℚ)
    (now : ℤ) :
    (payEmi entry loan amount now).1 =
      { entry with is_paid := true, paid_amount := some amount } := rfl

lemma payEmi_outstanding (entry : EmiScheduleEntry) (loan : Loan)
    (amount : ℚ) (now : ℤ) :
    (payEmi entry loan amount now).2.outstanding_principal =
      loan.outstanding_principal - entry.principal_component := by
  simp only [payEmi]
  split <;> rfl

lemma payEmi_interest (entry : EmiScheduleEntry) (loan : Loan)
    (amount : ℚ) (now : ℤ) :
    (payEmi entry loan amount now).2.total_interest_paid =
      loan.total_interest_paid + entry.interest_component := by
  simp only [payEmi]
  split <;> rfl

lemma payEmi_status (entry : EmiScheduleEntry) (loan : Loan) (amount : ℚ)
    (now : ℤ) :
    (payEmi entry loan amount now).2.status =
      if loan.outstanding_principal - entry.principal_component ≤ 0 then
        .completed
      else loan.status := by
  simp only [payEmi]
  split <;> rfl

lemma payEmi_completedAt (entry : EmiScheduleEntry) (loan : Loan)
    (amount : ℚ) (now : ℤ) :
    (payEmi entry loan amount now).2.completed_at =
      if loan.outstanding_principal - entry.principal_component ≤ 0 then
        some now
      else loan.completed_at := by
  simp only [payEmi]
  split <;> rfl

lemma payEmi_fst_pc (entry : EmiScheduleEntry) (loan : Loan) (amount : ℚ)
    (now : ℤ) :
    (payEmi entry loan amount now).1.principal_component =
      entry.principal_component := rfl

lemma prepay_ok_inv {l l' : Loan} {a : ℚ} {n : ℤ}
    (h : prepay l a n = .ok l') :
    l'.outstanding_principal = l.outstanding_principal - a ∧
    ((l.outstanding_principal - a ≤ 0 ∧ l'.status = .completed ∧
        l'.completed_at = some n) ∨
      (¬l.outstanding_principal - a ≤ 0 ∧ l'.status = l.status ∧
        l'.completed_at = l.completed_at)) := by
  simp only [prepay] at h
  split at h
  · cases h
  · split at h
    next hc =>
      cases h
      exact ⟨rfl, .inl ⟨hc, rfl, rfl⟩⟩
    next hc =>
      cases h
      exact ⟨rfl, .inr ⟨hc, rfl, rfl⟩⟩

/-! ## `routes/loans.ts` POST `/api/loans/:id/start-emi` -/

/-- A `pre_emi_interest` row.  The interest amount is a real number
(`Math.pow` with fractional exponent). -/
structure PreEmiCharge where
  period_start : ℤ
  period_end : ℤ
  days_count : ℤ
  principal_amount : ℚ
  interest_rate : ℚ
  interest_amount : ℝ
  due_date : ℤ

/-- The rows touched by the installment-start operation for one loan. -/
structure LoanState where
  loan : Loan
  preEmiCharges : List PreEmiCharge
  emiEntries : List EmiRow

/-- Database errors surfaced by the installment-start writes. -/
inductive StartEmiError where
  | uniqueViolation
  | checkViolation
  deriving DecidableEq, Repr

/-- From POST `/api/loans/:id/start-emi` (`routes/loans.ts` lines
271-339) together with the `schema.sql` constraints.  The handler has
no already-started check and no start-date validation; it issues three
sequential writes with no enclosing transaction:
1. insert one `pre_emi_interest` charge over the day gap (may be
   negative) — always succeeds;
2. `createMany` the schedule rows numbered `1..months`
   (`emi_months || 12`, so `0` falls back to `12`) — the
   `UNIQUE(loan_id, emi_number)` constraint fails exactly when schedule
   rows for the loan already exist;
3. update the loan's `emi_start_date`, where the `valid_timeline`
   `CHECK` rejects `emi_start_date < disbursed_at` or
   `maturity_date ≤ emi_start_date`.
A failure in a later step leaves the earlier writes persisted. -/
noncomputable def startEmi (st : LoanState) (startDate : ℤ)
    (emiMonths : ℕ) : LoanState × Option StartEmiError :=
  let daysDiff := startDate - st.loan.disbursed_at
  let preEmiInterest := calculatePreEmiInterest
    (st.loan.principal_amount : ℝ) (st.loan.interest_rate : ℝ)
    (daysDiff : ℝ)
  let charge : PreEmiCharge :=
    { period_start := st.loan.disbursed_at
      period_end := startDate
      days_count := daysDiff
      principal_amount := st.loan.principal_amount
      interest_rate := st.loan.interest_rate
      interest_amount := round2R preEmiInterest
      due_date := startDate }
  let st1 := { st with preEmiCharges := st.preEmiCharges ++ [charge] }
  let months := if emiMonths = 0 then 12 else emiMonths
  let schedule := generateEMISchedule st.loan.outstanding_principal
    st.loan.interest_rate months
  if st.emiEntries ≠ [] then (st1, some .uniqueViolation)
  else
    let st2 := { st1 with emiEntries := schedule }
    if startDate < st.loan.disbursed_at ∨
        st.loan.maturity_date ≤ startDate then
      (st2, some .checkViolation)
    else
      ({ st2 with loan :=
          { st2.loan with emi_start_date := some startDate } }, none)

lemma startEmi_loan_status (st : LoanState) (d : ℤ) (n : ℕ) :
    ((startEmi st d n).1).loan.status = st.loan.status := by
  simp only [startEmi]
  split
  · rfl
  · split <;> rfl

/-- The loan used in concrete lifecycle evaluations: disbursed on day
10, maturing on day 1105, active, outstanding principal 7000. -/
def c6Loan : Loan :=
  { principal_amount := 7000, interest_rate := 19 / 2, disbursed_at := 10,
    maturity_date := 1105, emi_start_date := none,
    outstanding_principal := 7000, total_interest_paid := 0,
    status := .active, completed_at := none }

/-- A fresh loan with no charge and no schedule rows. -/
def c6State : LoanState :=
  { loan := c6Loan, preEmiCharges := [], emiEntries := [] }

/-- C6: the installment-start endpoint enforces neither rejection the
claim describes.  (a) With a start date (day 5) before disbursement
(day 10), the operation does fail — but only at the final loan update
(`valid_timeline` check), after one `PreInstallmentCharge` and twelve
`InstallmentEntry` rows have already been persisted, contradicting "no
rows are created in the failing case".  (b) With the installment-start
date already set (and no schedule rows, as a loan requested with
`emi_start_date` has), the call succeeds outright instead of failing
`AlreadyStarted`. -/
theorem startEmi_missing_guards :
    ((startEmi c6State 5 12).2 = some .checkViolation ∧
     (startEmi c6State 5 12).1.preEmiCharges.length = 1 ∧
     (startEmi c6State 5 12).1.emiEntries.length = 12) ∧
    (startEmi
        { c6State with loan := { c6Loan with emi_start_date := some 40 } }
        100 12).2 = none := by
  refine ⟨⟨rfl, rfl, ?_⟩, rfl⟩
  rw [show (startEmi c6State 5 12).1.emiEntries =
    generateEMISchedule 7000 (19 / 2) 12 from rfl]
  simp only [generateEMISchedule]
  rw [emiLoop_length]

/-! ## Loan lifecycle (C7, C10) -/

/-- The operations specified for the core that read or write a given
loan row: the three payment shapes and the installment-start update. -/
inductive CoreLoanStep : Loan → Loan → Prop where
  | emiPayment (entry : EmiScheduleEntry) (amount : ℚ) (now : ℤ)
      (l : Loan) : CoreLoanStep l (payEmi entry l amount now).2
  | prepayment (amount : ℚ) (now : ℤ) (l l' : Loan) :
      prepay l amount now = .ok l' → CoreLoanStep l l'
  | preEmiPayment (amount : ℚ) (l : Loan) :
      CoreLoanStep l (payPreEmi l amount)
  | installmentStart (st : LoanState) (startDate : ℤ) (months : ℕ) :
      CoreLoanStep st.loan ((startEmi st startDate months).1.loan)

/-- C7: every principal-decrementing payment (installment or
prepayment) whose resulting outstanding principal is ≤ 0 moves the loan
to `completed` with a completion timestamp, and no core operation ever
moves a loan out of `completed`. -/
theorem loanCompletion_spec :
    (∀ (entry : EmiScheduleEntry) (l : Loan) (amount : ℚ) (now : ℤ),
      l.outstanding_principal - entry.principal_component ≤ 0 →
      (payEmi entry l amount now).2.status = .completed ∧
      (payEmi entry l amount now).2.completed_at = some now) ∧
    (∀ (l l' : Loan) (amount : ℚ) (now : ℤ),
      prepay l amount now = .ok l' → l'.outstanding_principal ≤ 0 →
      l'.status = .completed ∧ l'.completed_at = some now) ∧
    (∀ l l' : Loan, CoreLoanStep l l' → l.status = .completed →
      l'.status = .completed) := by
  refine ⟨?_, ?_, ?_⟩
  · intro entry l amount now h
    rw [payEmi_status, payEmi_completedAt, if_pos h, if_pos h]
    exact ⟨rfl, rfl⟩
  · intro l l' amount now hok hle
    obtain ⟨hout, hcase⟩ := prepay_ok_inv hok
    rcases hcase with ⟨_, hs, hc⟩ | ⟨hn, _, _⟩
    · exact ⟨hs, hc⟩
    · rw [hout] at hle
      exact absurd hle hn
  · intro l l' hstep hcomp
    cases hstep with
    | emiPayment entry amount now l =>
      rw [payEmi_status]
      split
      · rfl
      · exact hcomp
    | prepayment amount now l l' hok =>
      obtain ⟨_, hcase⟩ := prepay_ok_inv hok
      rcases hcase with ⟨_, hs, _⟩ | ⟨_, hs, _⟩
      · exact hs
      · exact hs.trans hcomp
    | preEmiPayment amount l => exact hcomp
    | installmentStart st startDate months =>
      exact (startEmi_loan_status st startDate months).trans hcomp

/-- The schedule entry used in concrete payment evaluations: principal
component 80, interest component 10, already marked paid. -/
def exampleEntry : EmiScheduleEntry :=
  { principal_component := 80, interest_component := 10, is_paid := true,
    paid_amount := none }

/-- A loan with outstanding principal 100 for the repeated-payment
evaluation. -/
def exampleLoan : Loan :=
  { principal_amount := 7000, interest_rate := 19 / 2, disbursed_at := 10,
    maturity_date := 1105, emi_start_date := some 40,
    outstanding_principal := 100, total_interest_paid := 0,
    status := .active, completed_at := none }

/-- C7 (witness): an installment payment on a loan whose outstanding
principal equals the entry's principal component completes the loan and
stamps the completion time. -/
theorem loanCompletion_spec_witness :
    exampleLoan.outstanding_principal -
        ({ principal_component := 100, interest_component := 10,
           is_paid := false, paid_amount := none } :
          EmiScheduleEntry).principal_component ≤ 0 ∧
    ((payEmi
        { principal_component := 100, interest_component := 10,
          is_paid := false, paid_amount := none }
        exampleLoan 110 5).2.status = .completed ∧
     (payEmi
        { principal_component := 100, interest_component := 10,
          is_paid := false, paid_amount := none }
        exampleLoan 110 5).2.completed_at = some 5) := by
  have h : exampleLoan.outstanding_principal -
      ({ principal_component := 100, interest_component := 10,
         is_paid := false, paid_amount := none } :
        EmiScheduleEntry).principal_component ≤ 0 := by
    norm_num [exampleLoan]
  exact ⟨h, loanCompletion_spec.1 _ exampleLoan 110 5 h⟩

/-- C10: the installment-payment handler has no already-paid guard — a
payment against an entry with `is_paid = true` still decrements the
outstanding principal and increments cumulative interest paid; applying
the same entry twice decrements by twice its principal component, and on
the concrete entry (component 80, loan outstanding 100) the outstanding
principal goes negative. -/
theorem payEmi_no_paid_guard_spec :
    (∀ (entry : EmiScheduleEntry) (l : Loan) (amount : ℚ) (now : ℤ),
      entry.is_paid = true →
      (payEmi entry l amount now).2.outstanding_principal =
        l.outstanding_principal - entry.principal_component ∧
      (payEmi entry l amount now).2.total_interest_paid =
        l.total_interest_paid + entry.interest_component) ∧
    (∀ (entry : EmiScheduleEntry) (l : Loan) (amount : ℚ) (now : ℤ),
      (payEmi (payEmi entry l amount now).1 (payEmi entry l amount now).2
          amount now).2.outstanding_principal =
        l.outstanding_principal - 2 * entry.principal_component) ∧
    (payEmi (payEmi exampleEntry exampleLoan 110 5).1
        (payEmi exampleEntry exampleLoan 110 5).2 110
        6).2.outstanding_principal < 0 := by
  refine ⟨?_, ?_, ?_⟩
  · intro entry l amount now _
    exact ⟨payEmi_outstanding entry l amount now,
      payEmi_interest entry l amount now⟩
  · intro entry l amount now
    rw [payEmi_outstanding, payEmi_fst_pc, payEmi_outstanding]
    ring
  · rw [payEmi_outstanding, payEmi_fst_pc, payEmi_outstanding]
    norm_num [exampleLoan, exampleEntry]

/-- C10 (witness): the no-guard clause applied to the concrete
already-paid entry. -/
theorem payEmi_no_paid_guard_spec_witness :
    exampleEntry.is_paid = true ∧
    ((payEmi exampleEntry exampleLoan 110 5).2.outstanding_principal =
        exampleLoan.outstanding_principal -
          exampleEntry.principal_component ∧
      (payEmi exampleEntry exampleLoan 110 5).2.total_interest_paid =
        exampleLoan.total_interest_paid +
          exampleEntry.interest_component) :=
  ⟨rfl, payEmi_no_paid_guard_spec.1 exampleEntry exampleLoan 110 5 rfl⟩

end SaarthiFund
